import Mathlib

/-!
Shallow embedding of the task-manager frontend (lib/api.ts, the dashboard
page, the admin page, the task-detail page and the root redirect page).

Each React event handler is embedded as a pure function from the component
state, the outcomes of the HTTP calls it awaits, and the answer of any
confirmation dialog, to the final component state together with the list of
observable effects it produces (HTTP requests in issue order, client-side
navigations, and session logout). JavaScript truthiness on strings is
modelled by emptiness tests, `x || d` fallbacks by `Option.getD` combined
with an emptiness test, and `response.data` payloads by `Option`s.
-/

namespace TaskManager

/-- Task status as in the union type of the pages. -/
inductive TStatus where
  | pending
  | in_progress
  | completed
deriving DecidableEq, Repr

/-- Task priority as in the union type of the pages. -/
inductive TPriority where
  | low
  | medium
  | high
deriving DecidableEq, Repr

/-- Role union type from the admin page's User interface. -/
inductive Role where
  | user
  | admin
deriving DecidableEq, Repr

/-- User interface of the admin page. -/
structure User where
  id : Nat
  email : String
  name : String
  role : Role
deriving DecidableEq, Repr

/-- Task interface of the dashboard and task-detail pages. -/
structure Task where
  id : Nat
  user_id : Nat
  title : String
  description : String
  status : TStatus
  priority : TPriority
  due_date : String
  created_at : String
deriving DecidableEq, Repr

/-- Task interface of the admin page (status and priority are plain strings
there, and the row has no due date or creation time). -/
structure AdminTask where
  id : Nat
  user_id : Nat
  title : String
  description : String
  status : String
  priority : String
deriving DecidableEq, Repr

/-- CreateTaskData from lib/api.ts; the dashboard always supplies a due_date
string, possibly empty. -/
structure CreateTaskData where
  title : String
  description : String
  priority : TPriority
  due_date : String
deriving DecidableEq, Repr

/-- UpdateTaskData from lib/api.ts: every field is optional, so an update
payload carries exactly the fields the caller put in. -/
structure UpdateTaskData where
  title : Option String
  description : Option String
  status : Option TStatus
  priority : Option TPriority
  due_date : Option String
deriving DecidableEq, Repr

/-- An axios rejection as the handlers inspect it: an HTTP status code when
the server answered, and the optional err.response.data.error string. -/
structure ApiError where
  status : Option Nat
  errData : Option String
deriving DecidableEq, Repr

/-- JavaScript String.prototype.trim as the pages call it: drop whitespace
from both ends, written by structural recursion over the character list so
concrete inputs evaluate. -/
def jsTrim (s : String) : String :=
  String.mk (((s.data.dropWhile Char.isWhitespace).reverse.dropWhile
    Char.isWhitespace).reverse)

/-- The message a catch block shows, modelling
`err.response?.data?.error || dflt` with JavaScript falsiness of "". -/
def ApiError.displayMsg (e : ApiError) (dflt : String) : String :=
  match e.errData with
  | some m => if m.isEmpty then dflt else m
  | none => dflt

/-- The HTTP requests the four source files can issue, one constructor per
call site family in lib/api.ts. -/
inductive ApiRequest where
  | createTask (data : CreateTaskData)
  | getAllTasks
  | getTask (id : Nat)
  | updateTask (id : Nat) (data : UpdateTaskData)
  | deleteTask (id : Nat)
  | getAllUsers
  | getAdminTasks
  | promoteUser (userId : Nat)
  | adminDeleteTask (taskId : Nat)
deriving DecidableEq, Repr

/-- Observable effects of a handler: an HTTP request, a router.push, or the
AuthContext logout call. -/
inductive Effect where
  | request (r : ApiRequest)
  | navigate (path : String)
  | logout
deriving DecidableEq, Repr

namespace Api

/-- API_URL from lib/api.ts: `process.env.NEXT_PUBLIC_API_URL ||
'http://localhost:8080/api'`, with JavaScript falsiness of "". -/
def API_URL (env : Option String) : String :=
  match env with
  | some s => if s.isEmpty then "http://localhost:8080/api" else s
  | none => "http://localhost:8080/api"

/-- Headers of an outbound axios request: the Authorization header, and all
other headers kept abstract. -/
structure AxiosHeaders where
  authorization : Option String
  rest : List (String × String)
deriving DecidableEq, Repr

/-- The part of an axios request config the interceptor can touch. -/
structure AxiosConfig where
  headers : AxiosHeaders
deriving DecidableEq, Repr

/-- The request interceptor of lib/api.ts: reads the token from local
storage; `if (token)` is true exactly for a non-null non-empty string, in
which case Authorization is set to `Bearer <token>`; otherwise the config
passes through unchanged. It always returns a config, never rejects. -/
def requestInterceptor (token : Option String) (config : AxiosConfig) : AxiosConfig :=
  match token with
  | some t =>
      if t.isEmpty then config
      else { config with headers := { config.headers with
               authorization := some ("Bearer " ++ t) } }
  | none => config

/-- Method of an HTTP endpoint. -/
inductive Method where
  | GET
  | POST
  | PUT
  | DELETE
deriving DecidableEq, Repr

/-- An endpoint as lib/api.ts addresses it: a method and a path relative to
the axios baseURL. -/
structure Endpoint where
  method : Method
  path : String
deriving DecidableEq, Repr

/-- The absolute URL axios sends a request to: baseURL ++ relative path. -/
def requestUrl (env : Option String) (e : Endpoint) : String :=
  API_URL env ++ e.path

namespace authAPI

/-- authAPI.register from lib/api.ts. -/
def register : Endpoint := ⟨.POST, "/auth/register"⟩

/-- authAPI.login from lib/api.ts. -/
def login : Endpoint := ⟨.POST, "/auth/login"⟩

/-- authAPI.getMe from lib/api.ts. -/
def getMe : Endpoint := ⟨.GET, "/auth/me"⟩

end authAPI

namespace taskAPI

/-- taskAPI.create from lib/api.ts. -/
def create : Endpoint := ⟨.POST, "/tasks"⟩

/-- taskAPI.getAll from lib/api.ts. -/
def getAll : Endpoint := ⟨.GET, "/tasks"⟩

/-- taskAPI.getById from lib/api.ts. -/
def getById (id : Nat) : Endpoint := ⟨.GET, "/tasks/" ++ toString id⟩

/-- taskAPI.update from lib/api.ts. -/
def update (id : Nat) : Endpoint := ⟨.PUT, "/tasks/" ++ toString id⟩

/-- taskAPI.delete from lib/api.ts. -/
def delete (id : Nat) : Endpoint := ⟨.DELETE, "/tasks/" ++ toString id⟩

end taskAPI

namespace adminAPI

/-- adminAPI.getAllUsers from lib/api.ts. -/
def getAllUsers : Endpoint := ⟨.GET, "/admin/users"⟩

/-- adminAPI.getAllTasks from lib/api.ts. -/
def getAllTasks : Endpoint := ⟨.GET, "/admin/tasks"⟩

/-- adminAPI.promoteUser from lib/api.ts. -/
def promoteUser (userId : Nat) : Endpoint := ⟨.POST, "/admin/promote/" ++ toString userId⟩

/-- adminAPI.deleteTask from lib/api.ts. -/
def deleteTask (taskId : Nat) : Endpoint := ⟨.DELETE, "/admin/tasks/" ++ toString taskId⟩

end adminAPI

end Api

namespace Dashboard

/-- Status filter of the dashboard, including the 'all' pseudo-status. -/
inductive FilterStatus where
  | all
  | pending
  | in_progress
  | completed
deriving DecidableEq, Repr

/-- The useState cells of the dashboard page. -/
structure State where
  tasks : List Task
  title : String
  description : String
  priority : TPriority
  dueDate : String
  error : String
  tasksLoading : Bool
  showCreateForm : Bool
  filterStatus : FilterStatus
  showEditModal : Bool
  editingTask : Option Task
  editTitle : String
  editDescription : String
  editPriority : TPriority
  editDueDate : String
deriving DecidableEq, Repr

/-- fetchTasks of the dashboard page: issue taskAPI.getAll; on success store
`response.data || []`; on any failure set the inline error string; either
way tasksLoading ends false. -/
def fetchTasks (s : State) (r : Except ApiError (Option (List Task))) :
    State × List Effect :=
  match r with
  | .ok d =>
      ({ s with tasksLoading := false, tasks := d.getD [] },
       [.request .getAllTasks])
  | .error _ =>
      ({ s with tasksLoading := false, error := "Failed to load tasks" },
       [.request .getAllTasks])

/-- handleCreateTask of the dashboard page: clear the error; if the trimmed
title is empty set the validation error and stop before any request;
otherwise issue taskAPI.create with the four form fields, and on success
reset the form, hide it, and refetch; on failure show the server-supplied or
default message. -/
def handleCreateTask (s : State) (rCreate : Except ApiError Unit)
    (rFetch : Except ApiError (Option (List Task))) : State × List Effect :=
  let s0 := { s with error := "" }
  if (jsTrim s.title).isEmpty then
    ({ s0 with error := "Title is required" }, [])
  else
    let payload : CreateTaskData := ⟨s.title, s.description, s.priority, s.dueDate⟩
    match rCreate with
    | .ok _ =>
        let s1 := { s0 with title := "", description := "", priority := .medium,
                            dueDate := "", showCreateForm := false }
        let res := fetchTasks s1 rFetch
        (res.1, .request (.createTask payload) :: res.2)
    | .error e =>
        ({ s0 with error := e.displayMsg "Failed to create task" },
         [.request (.createTask payload)])

/-- handleOpenEdit of the dashboard page: copy the task's fields into the
independent edit buffers and open the modal. -/
def handleOpenEdit (s : State) (t : Task) : State :=
  { s with editingTask := some t, editTitle := t.title,
           editDescription := t.description, editPriority := t.priority,
           editDueDate := t.due_date, showEditModal := true }

/-- handleSaveEdit of the dashboard page: no-op without an editingTask;
clear the error; reject an empty trimmed title before any request; otherwise
issue taskAPI.update with the four edit-buffer fields (never status), and on
success close the modal, drop editingTask and refetch; on failure keep the
editing state and show the message inline. -/
def handleSaveEdit (s : State) (rUpdate : Except ApiError Unit)
    (rFetch : Except ApiError (Option (List Task))) : State × List Effect :=
  match s.editingTask with
  | none => (s, [])
  | some t =>
      let s0 := { s with error := "" }
      if (jsTrim s.editTitle).isEmpty then
        ({ s0 with error := "Title is required" }, [])
      else
        let payload : UpdateTaskData :=
          ⟨some s.editTitle, some s.editDescription, none,
           some s.editPriority, some s.editDueDate⟩
        match rUpdate with
        | .ok _ =>
            let s1 := { s0 with showEditModal := false, editingTask := none }
            let res := fetchTasks s1 rFetch
            (res.1, .request (.updateTask t.id payload) :: res.2)
        | .error e =>
            ({ s0 with error := e.displayMsg "Failed to update task" },
             [.request (.updateTask t.id payload)])

/-- handleUpdateStatus of the dashboard page: issue taskAPI.update with a
payload holding only the status field, then refetch on success or set the
inline error on failure; it reads no edit-mode state at all. -/
def handleUpdateStatus (s : State) (taskId : Nat) (newStatus : TStatus)
    (rUpdate : Except ApiError Unit)
    (rFetch : Except ApiError (Option (List Task))) : State × List Effect :=
  let payload : UpdateTaskData := ⟨none, none, some newStatus, none, none⟩
  match rUpdate with
  | .ok _ =>
      let res := fetchTasks s rFetch
      (res.1, .request (.updateTask taskId payload) :: res.2)
  | .error _ =>
      ({ s with error := "Failed to update task status" },
       [.request (.updateTask taskId payload)])

/-- handleDeleteTask of the dashboard page: return at once if the
confirmation dialog is declined; otherwise issue taskAPI.delete, refetching
on success and setting the inline error on failure. -/
def handleDeleteTask (s : State) (confirmed : Bool) (taskId : Nat)
    (rDelete : Except ApiError Unit)
    (rFetch : Except ApiError (Option (List Task))) : State × List Effect :=
  if !confirmed then (s, [])
  else
    match rDelete with
    | .ok _ =>
        let res := fetchTasks s rFetch
        (res.1, .request (.deleteTask taskId) :: res.2)
    | .error _ =>
        ({ s with error := "Failed to delete task" },
         [.request (.deleteTask taskId)])

/-- handleLogout of the dashboard page: the only place this page clears the
session, followed by a redirect to the login page. -/
def handleLogout (s : State) : State × List Effect :=
  (s, [.logout, .navigate "/login"])

/-- Whether a task passes the selected status filter. -/
def statusMatches (f : FilterStatus) (t : Task) : Bool :=
  match f with
  | .all => true
  | .pending => t.status == .pending
  | .in_progress => t.status == .in_progress
  | .completed => t.status == .completed

/-- filteredTasks of the dashboard page: the stored list itself when the
filter is 'all', otherwise the stored list filtered by status equality. -/
def filteredTasks (s : State) : List Task :=
  match s.filterStatus with
  | .all => s.tasks
  | f => s.tasks.filter (fun t => statusMatches f t)

/-- The data-loading useEffect of the dashboard page: once a user is
resolved, fetch the task list; with no user, fetch nothing. -/
def onMount (user : Option User) : List Effect :=
  match user with
  | some _ => [.request .getAllTasks]
  | none => []

end Dashboard

namespace AdminPage

/-- The useState cells of the admin page. -/
structure State where
  users : List User
  tasks : List AdminTask
  error : String
  dataLoading : Bool
deriving DecidableEq, Repr

/-- fetchData of the admin page: issue the two admin list requests together;
on joint success store `data || []` for both; if either rejects set the
single inline error. -/
def fetchData (s : State)
    (r : Except ApiError (Option (List User) × Option (List AdminTask))) :
    State × List Effect :=
  match r with
  | .ok (us, ts) =>
      ({ s with dataLoading := false, users := us.getD [], tasks := ts.getD [] },
       [.request .getAllUsers, .request .getAdminTasks])
  | .error _ =>
      ({ s with dataLoading := false, error := "Failed to load data" },
       [.request .getAllUsers, .request .getAdminTasks])

/-- handlePromoteUser of the admin page: return at once if the confirmation
dialog is declined; otherwise issue adminAPI.promoteUser, refetching both
collections on success and setting the inline error on failure. -/
def handlePromoteUser (s : State) (confirmed : Bool) (userId : Nat)
    (rPromote : Except ApiError Unit)
    (rFetch : Except ApiError (Option (List User) × Option (List AdminTask))) :
    State × List Effect :=
  if !confirmed then (s, [])
  else
    match rPromote with
    | .ok _ =>
        let res := fetchData s rFetch
        (res.1, .request (.promoteUser userId) :: res.2)
    | .error _ =>
        ({ s with error := "Failed to promote user" },
         [.request (.promoteUser userId)])

/-- handleDeleteTask of the admin page: return at once if the confirmation
dialog is declined; otherwise issue adminAPI.deleteTask, refetching both
collections on success and setting the inline error on failure. -/
def handleDeleteTask (s : State) (confirmed : Bool) (taskId : Nat)
    (rDelete : Except ApiError Unit)
    (rFetch : Except ApiError (Option (List User) × Option (List AdminTask))) :
    State × List Effect :=
  if !confirmed then (s, [])
  else
    match rDelete with
    | .ok _ =>
        let res := fetchData s rFetch
        (res.1, .request (.adminDeleteTask taskId) :: res.2)
    | .error _ =>
        ({ s with error := "Failed to delete task" },
         [.request (.adminDeleteTask taskId)])

end AdminPage

namespace TaskDetail

/-- The useState cells of the task-detail page. -/
structure State where
  task : Option Task
  loading : Bool
  error : String
  isEditing : Bool
  editTitle : String
  editDescription : String
  editPriority : TPriority
  editDueDate : String
deriving DecidableEq, Repr

/-- fetchTask of the task-detail page: issue taskAPI.getById; on success
store the task and copy its fields into the edit buffers; on failure set the
inline error; loading ends false either way. -/
def fetchTask (s : State) (taskId : Nat) (r : Except ApiError Task) :
    State × List Effect :=
  match r with
  | .ok t =>
      ({ s with loading := false, task := some t, editTitle := t.title,
                editDescription := t.description, editPriority := t.priority,
                editDueDate := t.due_date },
       [.request (.getTask taskId)])
  | .error _ =>
      ({ s with loading := false, error := "Failed to load task details" },
       [.request (.getTask taskId)])

/-- handleSaveEdit of the task-detail page: no-op without a loaded task;
clear the error; reject an empty trimmed title before any request; otherwise
issue taskAPI.update with the four edit-buffer fields (never status), and on
success leave edit mode and refetch the task; on failure keep the editing
state and show the message inline. -/
def handleSaveEdit (s : State) (rUpdate : Except ApiError Unit)
    (rFetch : Except ApiError Task) : State × List Effect :=
  match s.task with
  | none => (s, [])
  | some t =>
      let s0 := { s with error := "" }
      if (jsTrim s.editTitle).isEmpty then
        ({ s0 with error := "Title is required" }, [])
      else
        let payload : UpdateTaskData :=
          ⟨some s.editTitle, some s.editDescription, none,
           some s.editPriority, some s.editDueDate⟩
        match rUpdate with
        | .ok _ =>
            let s1 := { s0 with isEditing := false }
            let res := fetchTask s1 t.id rFetch
            (res.1, .request (.updateTask t.id payload) :: res.2)
        | .error e =>
            ({ s0 with error := e.displayMsg "Failed to update task" },
             [.request (.updateTask t.id payload)])

/-- handleUpdateStatus of the task-detail page: no-op without a loaded task;
otherwise issue taskAPI.update with a payload holding only the status field,
refetching the task on success and setting the inline error on failure; it
reads no edit-mode state at all. -/
def handleUpdateStatus (s : State) (newStatus : TStatus)
    (rUpdate : Except ApiError Unit) (rFetch : Except ApiError Task) :
    State × List Effect :=
  match s.task with
  | none => (s, [])
  | some t =>
      let payload : UpdateTaskData := ⟨none, none, some newStatus, none, none⟩
      match rUpdate with
      | .ok _ =>
          let res := fetchTask s t.id rFetch
          (res.1, .request (.updateTask t.id payload) :: res.2)
      | .error _ =>
          ({ s with error := "Failed to update status" },
           [.request (.updateTask t.id payload)])

/-- handleDeleteTask of the task-detail page: return at once if the
confirmation dialog is declined, then no-op without a loaded task; otherwise
issue taskAPI.delete and on success navigate to the dashboard (whose mount
refetches the list); on failure set the inline error. -/
def handleDeleteTask (s : State) (confirmed : Bool)
    (rDelete : Except ApiError Unit) : State × List Effect :=
  if !confirmed then (s, [])
  else
    match s.task with
    | none => (s, [])
    | some t =>
        match rDelete with
        | .ok _ => (s, [.request (.deleteTask t.id), .navigate "/dashboard"])
        | .error _ =>
            ({ s with error := "Failed to delete task" },
             [.request (.deleteTask t.id)])

end TaskDetail

namespace Home

/-- The redirect useEffect of the root page: nothing while the session is
still resolving; afterwards an admin goes to /admin, any other resolved user
to /dashboard, and a null user to /login. -/
def redirectEffect (loading : Bool) (user : Option User) : List Effect :=
  if loading then []
  else
    match user with
    | some u => if u.role == .admin then [.navigate "/admin"] else [.navigate "/dashboard"]
    | none => [.navigate "/login"]

end Home

/-! Concrete sample data used by witnesses and counterexamples. -/

/-- A sample task. -/
def demoTask : Task :=
  ⟨1, 1, "Buy milk", "from the store", .pending, .low, "2024-06-01", "2024-01-01"⟩

/-- A sample non-admin user. -/
def demoUser : User := ⟨1, "alice@example.com", "Alice", .user⟩

/-- A sample dashboard state with the edit modal open on demoTask and
non-empty create and edit titles. -/
def demoDash : Dashboard.State :=
  ⟨[demoTask], "Buy milk", "from the store", .medium, "", "", false, false,
   .all, true, some demoTask, "Buy bread", "at the bakery", .high, "2024-07-01"⟩

/-- A sample admin-page state. -/
def demoAdmin : AdminPage.State := ⟨[demoUser], [], "", false⟩

/-- A sample task-detail state in edit mode on demoTask. -/
def demoDetail : TaskDetail.State :=
  ⟨some demoTask, false, "", true, "Buy bread", "at the bakery", .high, "2024-07-01"⟩

/-! Claims. -/

/-- Claim C5: a task-creation attempt whose title is empty or whitespace
only (trims to the empty string) fails the pre-flight check with the
validation message, issues no request or other effect, and leaves the whole
state unchanged apart from the error message. -/
theorem C5_empty_title_blocks_create (s : Dashboard.State)
    (rCreate : Except ApiError Unit)
    (rFetch : Except ApiError (Option (List Task)))
    (h : jsTrim s.title = "") :
    Dashboard.handleCreateTask s rCreate rFetch
      = ({ s with error := "Title is required" }, []) := by
  have h2 : (jsTrim s.title).isEmpty = true := by rw [h]; rfl
  simp [Dashboard.handleCreateTask, h2]

/-- Witness for claim C5 at a whitespace-only title. -/
theorem C5_empty_title_blocks_create_witness :
    Dashboard.handleCreateTask { demoDash with title := "   " } (.ok ()) (.ok (some []))
      = ({ demoDash with title := "   ", error := "Title is required" }, []) :=
  C5_empty_title_blocks_create { demoDash with title := "   " } (.ok ()) (.ok (some []))
    (by decide)

/-- Claim C6: with a non-empty token in local storage the interceptor sets
Authorization to `Bearer <token>` and leaves every other header untouched;
with no token the config passes through completely unchanged, so the request
is still issued and no request fails client-side for lack of a token. -/
theorem C6_bearer_header (t : String) (c : Api.AxiosConfig)
    (h : t.isEmpty = false) :
    Api.requestInterceptor (some t) c
        = { c with headers := { c.headers with
              authorization := some ("Bearer " ++ t) } } ∧
    (Api.requestInterceptor (some t) c).headers.rest = c.headers.rest ∧
    Api.requestInterceptor none c = c := by
  refine ⟨?_, ?_, rfl⟩ <;> simp [Api.requestInterceptor, h]

/-- Witness for claim C6 at a concrete token and config. -/
theorem C6_bearer_header_witness :
    (Api.requestInterceptor (some "tok123") ⟨⟨none, []⟩⟩).headers.authorization
      = some ("Bearer " ++ "tok123") := by
  rw [(C6_bearer_header "tok123" ⟨⟨none, []⟩⟩ (by decide)).1]

/-- Claim C8: every Task Client and Admin Client operation carries exactly
the method and path of the external-interface table (in particular update is
PUT /tasks/id and promoteUser is POST /admin/promote/userId), and the full
request URL is the environment base, which defaults to
http://localhost:8080/api when unset or empty, followed by that path. -/
theorem C8_endpoint_table :
    (∀ id : Nat, Api.taskAPI.update id = ⟨.PUT, "/tasks/" ++ toString id⟩) ∧
    (∀ uid : Nat,
        Api.adminAPI.promoteUser uid = ⟨.POST, "/admin/promote/" ++ toString uid⟩) ∧
    Api.taskAPI.create = ⟨.POST, "/tasks"⟩ ∧
    Api.taskAPI.getAll = ⟨.GET, "/tasks"⟩ ∧
    (∀ id : Nat, Api.taskAPI.getById id = ⟨.GET, "/tasks/" ++ toString id⟩) ∧
    (∀ id : Nat, Api.taskAPI.delete id = ⟨.DELETE, "/tasks/" ++ toString id⟩) ∧
    Api.adminAPI.getAllUsers = ⟨.GET, "/admin/users"⟩ ∧
    Api.adminAPI.getAllTasks = ⟨.GET, "/admin/tasks"⟩ ∧
    (∀ tid : Nat,
        Api.adminAPI.deleteTask tid = ⟨.DELETE, "/admin/tasks/" ++ toString tid⟩) ∧
    Api.authAPI.register = ⟨.POST, "/auth/register"⟩ ∧
    Api.authAPI.login = ⟨.POST, "/auth/login"⟩ ∧
    Api.authAPI.getMe = ⟨.GET, "/auth/me"⟩ ∧
    Api.API_URL none = "http://localhost:8080/api" ∧
    Api.API_URL (some "") = "http://localhost:8080/api" ∧
    Api.requestUrl none (Api.taskAPI.update 7) = "http://localhost:8080/api/tasks/7" ∧
    Api.requestUrl (some "https://example.com/api") (Api.adminAPI.promoteUser 3)
      = "https://example.com/api/admin/promote/3" :=
  ⟨fun _ => rfl, fun _ => rfl, rfl, rfl, fun _ => rfl, fun _ => rfl, rfl, rfl,
   fun _ => rfl, rfl, rfl, rfl, rfl, rfl, by decide, by decide⟩

/-- Claim C9: when the confirmation dialog is declined, each destructive or
privileged handler (dashboard delete, admin promote, admin force-delete,
detail-page delete) returns the state unchanged and produces no effect at
all: no request, no navigation, no logout, no error change. -/
theorem C9_declined_confirm_is_noop (s : Dashboard.State) (sa : AdminPage.State)
    (sd : TaskDetail.State) (tid uid atid : Nat)
    (r1 r2 r3 r4 : Except ApiError Unit)
    (rf : Except ApiError (Option (List Task)))
    (rfa : Except ApiError (Option (List User) × Option (List AdminTask))) :
    Dashboard.handleDeleteTask s false tid r1 rf = (s, []) ∧
    AdminPage.handlePromoteUser sa false uid r2 rfa = (sa, []) ∧
    AdminPage.handleDeleteTask sa false atid r3 rfa = (sa, []) ∧
    TaskDetail.handleDeleteTask sd false r4 = (sd, []) :=
  ⟨rfl, rfl, rfl, rfl⟩

/-- Claim C10: once session resolution has finished (loading is false), the
root page redirects every outcome deterministically: an admin to /admin, a
user of any other role to /dashboard, and a null user to /login; no outcome
produces an empty effect list, so no visitor stays on the root page. -/
theorem C10_home_routing (uid : Nat) (em nm : String) (u : User) :
    Home.redirectEffect false (some ⟨uid, em, nm, .admin⟩) = [.navigate "/admin"] ∧
    Home.redirectEffect false (some ⟨uid, em, nm, .user⟩) = [.navigate "/dashboard"] ∧
    Home.redirectEffect false none = [.navigate "/login"] ∧
    Home.redirectEffect false (some u) ≠ [] := by
  refine ⟨rfl, rfl, rfl, ?_⟩
  cases u with
  | mk uid2 em2 nm2 r => cases r <;> simp [Home.redirectEffect]

/-- Claim C3: a status change from either status selector issues an update
request whose payload populates exactly the single status field, with every
other field absent, for every component state — in particular whatever the
edit-mode flags hold — so that request leaves all other task fields
unchanged under the backend's omitted-fields-unchanged contract. -/
theorem C3_status_update_single_field (s : Dashboard.State)
    (sd : TaskDetail.State) (t : Task) (tid : Nat) (ns : TStatus)
    (r1 r2 : Except ApiError Unit)
    (rf : Except ApiError (Option (List Task))) (rft : Except ApiError Task)
    (hTask : sd.task = some t) :
    (Dashboard.handleUpdateStatus s tid ns r1 rf).2.head?
        = some (.request (.updateTask tid ⟨none, none, some ns, none, none⟩)) ∧
    (TaskDetail.handleUpdateStatus sd ns r2 rft).2.head?
        = some (.request (.updateTask t.id ⟨none, none, some ns, none, none⟩)) := by
  constructor
  · cases r1 <;> simp [Dashboard.handleUpdateStatus]
  · cases r2 <;> simp [TaskDetail.handleUpdateStatus, hTask]

/-- Witness for claim C3 at a concrete detail-page state in edit mode. -/
theorem C3_status_update_single_field_witness :
    (TaskDetail.handleUpdateStatus demoDetail .completed (.ok ()) (.ok demoTask)).2.head?
        = some (.request (.updateTask demoTask.id
            ⟨none, none, some .completed, none, none⟩)) :=
  (C3_status_update_single_field demoDash demoDetail demoTask 1 .completed
    (.ok ()) (.ok ()) (.ok (some [])) (.ok demoTask) rfl).2

/-- Claim C7: the dashboard stores any delivered list verbatim (no
re-sorting), and the displayed list is the stored sequence under the 'all'
filter and otherwise the stored sequence filtered to exactly the tasks
matching the selected status, a subsequence preserving the delivered
relative order. -/
theorem C7_no_resort_filter (s : Dashboard.State) (l : List Task) :
    (Dashboard.fetchTasks s (.ok (some l))).1.tasks = l ∧
    Dashboard.filteredTasks { s with filterStatus := .all } = s.tasks ∧
    List.Sublist (Dashboard.filteredTasks s) s.tasks ∧
    (∀ t, t ∈ Dashboard.filteredTasks s
        ↔ t ∈ s.tasks ∧ Dashboard.statusMatches s.filterStatus t = true) := by
  refine ⟨rfl, rfl, ?_, ?_⟩
  · cases hf : s.filterStatus
    · simp only [Dashboard.filteredTasks, hf]
      exact List.Sublist.refl _
    all_goals simp only [Dashboard.filteredTasks, hf]; exact List.filter_sublist _
  · intro t
    cases hf : s.filterStatus <;>
      simp [Dashboard.filteredTasks, Dashboard.statusMatches, hf, List.mem_filter]

/-- Claim C4: a full-field edit save on success closes edit mode (modal
closed and editingTask dropped on the dashboard; isEditing cleared on the
detail page) and refetches the data; on failure the editing state and every
edit buffer are kept and only the error message changes, surfaced inline by
a normally returning handler. -/
theorem C4_save_edit (s : Dashboard.State) (sd : TaskDetail.State) (t td : Task)
    (e e2 : ApiError) (rf : Except ApiError (Option (List Task)))
    (rft : Except ApiError Task)
    (hEdit : s.editingTask = some t)
    (hTitle : (jsTrim s.editTitle).isEmpty = false)
    (hTask : sd.task = some td)
    (hTitle2 : (jsTrim sd.editTitle).isEmpty = false) :
    (Dashboard.handleSaveEdit s (.ok ()) rf).1.showEditModal = false ∧
    (Dashboard.handleSaveEdit s (.ok ()) rf).1.editingTask = none ∧
    (Dashboard.handleSaveEdit s (.ok ()) rf).2
        = [.request (.updateTask t.id
             ⟨some s.editTitle, some s.editDescription, none,
              some s.editPriority, some s.editDueDate⟩),
           .request .getAllTasks] ∧
    (Dashboard.handleSaveEdit s (.error e) rf).1
        = { s with error := e.displayMsg "Failed to update task" } ∧
    (Dashboard.handleSaveEdit s (.error e) rf).2
        = [.request (.updateTask t.id
             ⟨some s.editTitle, some s.editDescription, none,
              some s.editPriority, some s.editDueDate⟩)] ∧
    (TaskDetail.handleSaveEdit sd (.ok ()) rft).1.isEditing = false ∧
    (TaskDetail.handleSaveEdit sd (.ok ()) rft).2
        = [.request (.updateTask td.id
             ⟨some sd.editTitle, some sd.editDescription, none,
              some sd.editPriority, some sd.editDueDate⟩),
           .request (.getTask td.id)] ∧
    (TaskDetail.handleSaveEdit sd (.error e2) rft).1
        = { sd with error := e2.displayMsg "Failed to update task" } ∧
    (TaskDetail.handleSaveEdit sd (.error e2) rft).2
        = [.request (.updateTask td.id
             ⟨some sd.editTitle, some sd.editDescription, none,
              some sd.editPriority, some sd.editDueDate⟩)] := by
  refine ⟨?_, ?_, ?_, ?_, ?_, ?_, ?_, ?_, ?_⟩ <;>
    cases rf <;> cases rft <;>
      simp [Dashboard.handleSaveEdit, TaskDetail.handleSaveEdit,
            Dashboard.fetchTasks, TaskDetail.fetchTask, hEdit, hTitle, hTask, hTitle2]

/-- Witness for claim C4 at concrete editing states. -/
theorem C4_save_edit_witness :
    (Dashboard.handleSaveEdit demoDash (.ok ()) (.ok (some []))).1.editingTask
      = none :=
  (C4_save_edit demoDash demoDetail demoTask demoTask ⟨some 400, none⟩ ⟨none, none⟩
    (.ok (some [])) (.ok demoTask) rfl (by decide) rfl (by decide)).2.1

/-- Claim C2: every successful mutation (dashboard create, edit save, status
change and delete; admin promote and force-delete; detail-page edit save and
status change) issues the mutation request immediately followed by a full
refetch of the affected collection, and the state afterwards holds exactly
the refetched server data rather than a locally retained copy; the
detail-page delete instead navigates to the dashboard, whose mount refetches
the task list. -/
theorem C2_refetch_after_mutation (s : Dashboard.State) (sa : AdminPage.State)
    (sd : TaskDetail.State) (d : List Task) (us : List User)
    (ts : List AdminTask) (t td t2 : Task) (tid uid atid : Nat) (ns : TStatus)
    (u : User)
    (hTitle : (jsTrim s.title).isEmpty = false)
    (hEdit : s.editingTask = some t)
    (hEditTitle : (jsTrim s.editTitle).isEmpty = false)
    (hTask : sd.task = some td)
    (hDetailTitle : (jsTrim sd.editTitle).isEmpty = false) :
    (Dashboard.handleCreateTask s (.ok ()) (.ok (some d))).2
        = [.request (.createTask ⟨s.title, s.description, s.priority, s.dueDate⟩),
           .request .getAllTasks] ∧
    (Dashboard.handleCreateTask s (.ok ()) (.ok (some d))).1.tasks = d ∧
    (Dashboard.handleSaveEdit s (.ok ()) (.ok (some d))).2
        = [.request (.updateTask t.id
             ⟨some s.editTitle, some s.editDescription, none,
              some s.editPriority, some s.editDueDate⟩),
           .request .getAllTasks] ∧
    (Dashboard.handleSaveEdit s (.ok ()) (.ok (some d))).1.tasks = d ∧
    (Dashboard.handleUpdateStatus s tid ns (.ok ()) (.ok (some d))).2
        = [.request (.updateTask tid ⟨none, none, some ns, none, none⟩),
           .request .getAllTasks] ∧
    (Dashboard.handleUpdateStatus s tid ns (.ok ()) (.ok (some d))).1.tasks = d ∧
    (Dashboard.handleDeleteTask s true tid (.ok ()) (.ok (some d))).2
        = [.request (.deleteTask tid), .request .getAllTasks] ∧
    (Dashboard.handleDeleteTask s true tid (.ok ()) (.ok (some d))).1.tasks = d ∧
    (AdminPage.handlePromoteUser sa true uid (.ok ()) (.ok (some us, some ts))).2
        = [.request (.promoteUser uid), .request .getAllUsers,
           .request .getAdminTasks] ∧
    (AdminPage.handlePromoteUser sa true uid (.ok ()) (.ok (some us, some ts))).1.users
        = us ∧
    (AdminPage.handlePromoteUser sa true uid (.ok ()) (.ok (some us, some ts))).1.tasks
        = ts ∧
    (AdminPage.handleDeleteTask sa true atid (.ok ()) (.ok (some us, some ts))).2
        = [.request (.adminDeleteTask atid), .request .getAllUsers,
           .request .getAdminTasks] ∧
    (AdminPage.handleDeleteTask sa true atid (.ok ()) (.ok (some us, some ts))).1.users
        = us ∧
    (AdminPage.handleDeleteTask sa true atid (.ok ()) (.ok (some us, some ts))).1.tasks
        = ts ∧
    (TaskDetail.handleSaveEdit sd (.ok ()) (.ok t2)).1.task = some t2 ∧
    (TaskDetail.handleSaveEdit sd (.ok ()) (.ok t2)).2
        = [.request (.updateTask td.id
             ⟨some sd.editTitle, some sd.editDescription, none,
              some sd.editPriority, some sd.editDueDate⟩),
           .request (.getTask td.id)] ∧
    (TaskDetail.handleUpdateStatus sd ns (.ok ()) (.ok t2)).1.task = some t2 ∧
    (TaskDetail.handleDeleteTask sd true (.ok ())).2
        = [.request (.deleteTask td.id), .navigate "/dashboard"] ∧
    Dashboard.onMount (some u) = [.request .getAllTasks] := by
  refine ⟨?_, ?_, ?_, ?_, ?_, ?_, ?_, ?_, ?_, ?_, ?_, ?_, ?_, ?_, ?_, ?_, ?_,
          ?_, ?_⟩ <;>
    simp [Dashboard.handleCreateTask, Dashboard.handleSaveEdit,
          Dashboard.handleUpdateStatus, Dashboard.handleDeleteTask,
          Dashboard.fetchTasks, Dashboard.onMount, AdminPage.handlePromoteUser,
          AdminPage.handleDeleteTask, AdminPage.fetchData,
          TaskDetail.handleSaveEdit, TaskDetail.handleUpdateStatus,
          TaskDetail.handleDeleteTask, TaskDetail.fetchTask,
          hTitle, hEdit, hEditTitle, hTask, hDetailTitle]

/-- Witness for claim C2 at concrete states with the confirmations accepted
and every call succeeding. -/
theorem C2_refetch_after_mutation_witness :
    (Dashboard.handleCreateTask demoDash (.ok ()) (.ok (some [demoTask]))).2
      = [.request (.createTask ⟨demoDash.title, demoDash.description,
           demoDash.priority, demoDash.dueDate⟩),
         .request .getAllTasks] :=
  (C2_refetch_after_mutation demoDash demoAdmin demoDetail [demoTask] [] []
    demoTask demoTask demoTask 1 1 1 .completed demoUser
    (by decide) rfl (by decide) rfl (by decide)).1

/-- Claim C1 counterexample: the dashboard's authenticated list fetch,
rejected by the backend with status 401, sets the inline error message
"Failed to load tasks" and produces no logout and no navigation effect —
the claimed forced logout-and-redirect does not happen on this authenticated
call. -/
theorem C1_counterexample :
    (Dashboard.fetchTasks demoDash (.error ⟨some 401, none⟩)).1.error
        = "Failed to load tasks" ∧
    (Dashboard.fetchTasks demoDash (.error ⟨some 401, none⟩)).2
        = [.request .getAllTasks] := ⟨rfl, rfl⟩

/-- Claim C1 as amended: a 401 — like any rejection — of an authenticated
data fetch in the view controllers is surfaced as an inline error message in
the view, with no logout and no redirect effect; clearing the session
together with a login redirect happens only through the explicit logout
handler. -/
theorem C1_data_call_401_inline (s : Dashboard.State) (sd : TaskDetail.State)
    (e e2 : ApiError) (tid : Nat) :
    (Dashboard.fetchTasks s (.error e)).1.error = "Failed to load tasks" ∧
    (Dashboard.fetchTasks s (.error e)).2 = [.request .getAllTasks] ∧
    (TaskDetail.fetchTask sd tid (.error e2)).1.error
        = "Failed to load task details" ∧
    (TaskDetail.fetchTask sd tid (.error e2)).2 = [.request (.getTask tid)] ∧
    Dashboard.handleLogout s = (s, [.logout, .navigate "/login"]) :=
  ⟨rfl, rfl, rfl, rfl, rfl⟩

end TaskManager
